import Mathlib

/-!
Verification of the payloadevaluation example repository.

The repository is Next.js glue code over the Payload CMS Local API: two GET/POST
route handlers (posts, products), a set of server-side mutation actions, and two
draft-mode routes.  This file shallowly embeds the relevant handlers and actions:

* query-string parameters are `Option String` (`none` = parameter absent from the
  URL, `some ""` = present with an empty value), matching `searchParams.get`;
* the JS builtins `parseInt` and `parseFloat` are modelled executably, with
  `none` standing for `NaN` (decimal/hex integer literals and decimal float
  literals without an exponent, which covers every use in this code);
* the where-clauses the handlers build are values of a small `Clause` type that
  mirrors exactly the object shapes the source constructs (a top-level `and`
  list whose elements are field predicates, plus the one `or` sub-clause used
  for free-text search);
* the external store is an association list from id strings to records, and the
  store operations `find` / `findByID` / `create` / `update` are either modelled
  on that list (for the read-modify-write actions) or abstracted as an
  `Except Err` oracle argument (for the handlers, where only the envelope
  behaviour is claimed).
-/

/-- Error value thrown by the store / runtime; `msg` is `error.message`. -/
structure Err where
  msg : String
  deriving DecidableEq

/-- JS `error.message || fallback`: the fallback is used when `message` is
empty (the only falsy string). -/
def msgOr (e : Err) (fallback : String) : String :=
  if e.msg == "" then fallback else e.msg

/-- JS truthiness of a nullable string: `null` and `""` are falsy. -/
def truthy : Option String → Bool
  | none => false
  | some s => !(s == "")

/-- JS falsiness of a nullable string (used by the required-field checks). -/
def falsyS (o : Option String) : Bool :=
  !(truthy o)

/-- JS falsiness of a nullable number: `null`/`undefined` and `0` are falsy. -/
def falsyN : Option Rat → Bool
  | none => true
  | some x => x == 0

/-- Whitespace as skipped by the JS numeric parsers. -/
def jsIsWS (c : Char) : Bool :=
  c == ' ' || c == '\t' || c == '\n' || c == '\r' || c == '\x0b' || c == '\x0c'

/-- Leading sign of a JS numeric literal; returns the sign as an integer. -/
def readSign : List Char → Int × List Char
  | '-' :: r => (-1, r)
  | '+' :: r => (1, r)
  | cs => (1, cs)

/-- Value of one digit character in a radix up to 36. -/
def digitValue (c : Char) : Option Nat :=
  if '0' ≤ c ∧ c ≤ '9' then some (c.toNat - '0'.toNat)
  else if 'a' ≤ c ∧ c ≤ 'z' then some (c.toNat - 'a'.toNat + 10)
  else if 'A' ≤ c ∧ c ≤ 'Z' then some (c.toNat - 'A'.toNat + 10)
  else none

/-- Longest leading run of digits valid in the given radix. -/
def takeDigitsIn (radix : Nat) : List Char → List Nat
  | [] => []
  | c :: cs =>
    match digitValue c with
    | some v => if v < radix then v :: takeDigitsIn radix cs else []
    | none => []

/-- Model of the JS builtin `parseInt(s)` (no explicit radix): skip whitespace,
optional sign, auto-detected hex prefix, longest digit run; `none` is `NaN`. -/
def jsParseInt (s : String) : Option Int :=
  let cs := s.data.dropWhile jsIsWS
  let (sg, cs1) := readSign cs
  let (radix, cs2) :=
    match cs1 with
    | '0' :: 'x' :: r => (16, r)
    | '0' :: 'X' :: r => (16, r)
    | _ => (10, cs1)
  let ds := takeDigitsIn radix cs2
  if ds.isEmpty then none
  else some (sg * (Int.ofNat (ds.foldl (fun a d => a * radix + d) 0)))

/-- Decimal value of a digit run. -/
def decDigits (cs : List Char) : Nat :=
  cs.foldl (fun a c => a * 10 + (c.toNat - '0'.toNat)) 0

/-- Model of the JS builtin `parseFloat(s)` restricted to decimal literals
without an exponent (the only shape these routes receive); `none` is `NaN`. -/
def jsParseFloat (s : String) : Option Rat :=
  let cs := s.data.dropWhile jsIsWS
  let (sg, cs1) := readSign cs
  let ip := cs1.takeWhile Char.isDigit
  let rest := cs1.drop ip.length
  let fp :=
    match rest with
    | '.' :: r => r.takeWhile Char.isDigit
    | _ => []
  if ip.isEmpty && fp.isEmpty then none
  else some ((sg : Rat) * ((decDigits ip : Rat) + (decDigits fp : Rat) / ((10 : Rat) ^ fp.length)))

/-- `parseInt(searchParams.get('page') || '1')`: `null` and `""` are replaced
by the default string before parsing; anything else is parsed as-is. -/
def pageParam (q : Option String) : Option Int :=
  jsParseInt (match q with
    | none => "1"
    | some s => if s == "" then "1" else s)

/-- `parseInt(searchParams.get('limit') || '10')`. -/
def limitParam (q : Option String) : Option Int :=
  jsParseInt (match q with
    | none => "10"
    | some s => if s == "" then "10" else s)

/-- Value compared by an `equals` predicate. -/
inductive FVal
  | str (s : String)
  | bool (b : Bool)
  deriving DecidableEq

/-- One field predicate as pushed onto `whereConditions` (or built for the
price range).  `priceRange` carries the optional `greater_than_equal` /
`less_than_equal` keys; the inner `Option Rat` is the `parseFloat` result
(`none` = `NaN`). -/
inductive Cond
  | equals (field : String) (v : FVal)
  | contains (field : String) (v : String)
  | priceRange (greater_than_equal less_than_equal : Option (Option Rat))
  deriving DecidableEq

/-- One element of the top-level `and` list: either a plain field predicate or
the single `or` sub-clause used for free-text search. -/
inductive Clause
  | cond (c : Cond)
  | orOf (l : List Cond)
  deriving DecidableEq

/-- The arguments of the one `find` call a GET handler issues: `whereArg = none`
when the simple-pagination helper is used (no where clause at all), otherwise
the top-level `and` list.  `page`/`limit` are the parsed values handed to the
store (`none` = `NaN`). -/
structure FindCall where
  collection : String
  whereArg : Option (List Clause)
  page : Option Int
  limit : Option Int
  sort : Option String
  deriving DecidableEq

/-- `if (x) { whereConditions.push(f(x)) }` for a truthiness-guarded string
parameter. -/
def condIf (o : Option String) (f : String → Cond) : List Cond :=
  match o with
  | some v => if v == "" then [] else [f v]
  | none => []

/-- Push for a parameter guarded only by `x !== null && x !== undefined`
(the `featured` / `inStock` boolean parameters). -/
def condAlways (o : Option String) (f : String → Cond) : List Cond :=
  match o with
  | some v => [f v]
  | none => []

/-- The query-string parameters of `GET /api/examples/posts`. -/
structure PostsParams where
  page : Option String
  limit : Option String
  category : Option String
  status : Option String
  featured : Option String
  author : Option String
  tag : Option String
  search : Option String
  deriving DecidableEq

/-- The guard of the simple-pagination branch of the posts route:
`!category && !status && !featured && !author && !tag && !search`. -/
def postsNoFilters (p : PostsParams) : Bool :=
  !truthy p.category && !truthy p.status && !truthy p.featured &&
    !truthy p.author && !truthy p.tag && !truthy p.search

/-- The `whereConditions` array built by the posts route, in push order. -/
def postsConditions (p : PostsParams) : List Cond :=
  condIf p.category (fun c => Cond.equals "category" (FVal.str c)) ++
    condIf p.status (fun st => Cond.equals "status" (FVal.str st)) ++
    condAlways p.featured (fun f => Cond.equals "featured" (FVal.bool (f == "true"))) ++
    condIf p.author (fun a => Cond.contains "author" a) ++
    condIf p.tag (fun t => Cond.equals "tags.tag" (FVal.str t))

/-- The extra `or` sub-clause appended when `search` is truthy. -/
def postsSearchClause (p : PostsParams) : List Clause :=
  match p.search with
  | some s =>
    if s == "" then []
    else [Clause.orOf [Cond.contains "title" s, Cond.contains "excerpt" s,
      Cond.contains "content" s]]
  | none => []

/-- The single `find` call issued by `GET /api/examples/posts`. -/
def postsGETcall (p : PostsParams) : FindCall :=
  if postsNoFilters p then
    { collection := "posts", whereArg := none,
      page := pageParam p.page, limit := limitParam p.limit, sort := none }
  else
    { collection := "posts",
      whereArg := some ((postsConditions p).map Clause.cond ++ postsSearchClause p),
      page := pageParam p.page, limit := limitParam p.limit,
      sort := some "-publishedDate" }

/-- The query-string parameters of `GET /api/examples/products`. -/
structure ProductsParams where
  page : Option String
  limit : Option String
  category : Option String
  inStock : Option String
  featured : Option String
  minPrice : Option String
  maxPrice : Option String
  search : Option String
  deriving DecidableEq

/-- The guard of the simple-pagination branch of the products route. -/
def productsNoFilters (p : ProductsParams) : Bool :=
  !truthy p.category && !truthy p.inStock && !truthy p.featured &&
    !truthy p.minPrice && !truthy p.maxPrice && !truthy p.search

/-- `if (minPrice) priceCondition.greater_than_equal = parseFloat(minPrice)`:
the bound key is present exactly when the parameter is truthy. -/
def boundIf (o : Option String) : Option (Option Rat) :=
  match o with
  | some v => if v == "" then none else some (jsParseFloat v)
  | none => none

/-- The price condition pushed by the products route when
`minPrice || maxPrice` is truthy. -/
def priceConds (p : ProductsParams) : List Cond :=
  if truthy p.minPrice || truthy p.maxPrice then
    [Cond.priceRange (boundIf p.minPrice) (boundIf p.maxPrice)]
  else []

/-- The `whereConditions` array built by the products route, in push order. -/
def productsConditions (p : ProductsParams) : List Cond :=
  condIf p.category (fun c => Cond.equals "category" (FVal.str c)) ++
    condAlways p.inStock (fun v => Cond.equals "inStock" (FVal.bool (v == "true"))) ++
    condAlways p.featured (fun f => Cond.equals "featured" (FVal.bool (f == "true"))) ++
    priceConds p

/-- The extra `or` sub-clause appended when `search` is truthy. -/
def productsSearchClause (p : ProductsParams) : List Clause :=
  match p.search with
  | some s =>
    if s == "" then []
    else [Clause.orOf [Cond.contains "name" s, Cond.contains "description" s]]
  | none => []

/-- The single `find` call issued by `GET /api/examples/products`. -/
def productsGETcall (p : ProductsParams) : FindCall :=
  if productsNoFilters p then
    { collection := "products", whereArg := none,
      page := pageParam p.page, limit := limitParam p.limit, sort := none }
  else
    { collection := "products",
      whereArg := some ((productsConditions p).map Clause.cond ++ productsSearchClause p),
      page := pageParam p.page, limit := limitParam p.limit,
      sort := some "-createdAt" }

/-- Present with a non-empty value, or absent: the restriction under which
truthiness tests agree with presence tests. -/
def neOpt (o : Option String) : Bool :=
  match o with
  | none => true
  | some s => !(s == "")

/-- All posts filter parameters are absent or non-empty. -/
def postsNE (p : PostsParams) : Bool :=
  neOpt p.category && neOpt p.status && neOpt p.featured &&
    neOpt p.author && neOpt p.tag && neOpt p.search

/-- All products filter parameters are absent or non-empty. -/
def productsNE (p : ProductsParams) : Bool :=
  neOpt p.category && neOpt p.inStock && neOpt p.featured &&
    neOpt p.minPrice && neOpt p.maxPrice && neOpt p.search

/-- Spec-side where clause for the posts route, written from the claim's
words: no clause when every filter parameter is absent, otherwise a strict
conjunction with exactly one predicate per present parameter (category,
status, tag as equals; featured as boolean equals against the string "true";
author as contains), plus one `or` disjunction over title/excerpt/content
when a search term is present, and `or` nowhere else. -/
def specPostsWhere (p : PostsParams) : Option (List Clause) :=
  if p.category.isNone && p.status.isNone && p.featured.isNone &&
      p.author.isNone && p.tag.isNone && p.search.isNone then none
  else
    some ((condAlways p.category (fun c => Cond.equals "category" (FVal.str c)) ++
        condAlways p.status (fun st => Cond.equals "status" (FVal.str st)) ++
        condAlways p.featured (fun f => Cond.equals "featured" (FVal.bool (f == "true"))) ++
        condAlways p.author (fun a => Cond.contains "author" a) ++
        condAlways p.tag (fun t => Cond.equals "tags.tag" (FVal.str t))).map Clause.cond ++
      (match p.search with
      | some s => [Clause.orOf [Cond.contains "title" s, Cond.contains "excerpt" s,
          Cond.contains "content" s]]
      | none => []))

/-- Spec-side where clause for the products route: one predicate per present
parameter (category equals; inStock/featured boolean equals against "true"),
a single inclusive price-range predicate when minPrice and/or maxPrice is
present, and the name/description search disjunction last. -/
def specProductsWhere (p : ProductsParams) : Option (List Clause) :=
  if p.category.isNone && p.inStock.isNone && p.featured.isNone &&
      p.minPrice.isNone && p.maxPrice.isNone && p.search.isNone then none
  else
    some ((condAlways p.category (fun c => Cond.equals "category" (FVal.str c)) ++
        condAlways p.inStock (fun v => Cond.equals "inStock" (FVal.bool (v == "true"))) ++
        condAlways p.featured (fun f => Cond.equals "featured" (FVal.bool (f == "true"))) ++
        (if p.minPrice.isSome || p.maxPrice.isSome then
          [Cond.priceRange (p.minPrice.map jsParseFloat) (p.maxPrice.map jsParseFloat)]
        else [])).map Clause.cond ++
      (match p.search with
      | some s => [Clause.orOf [Cond.contains "name" s, Cond.contains "description" s]]
      | none => []))

/-- Is a condition the price-range predicate? -/
def isPriceCond : Cond → Bool
  | Cond.priceRange _ _ => true
  | _ => false

/-- The external store: an association list from document id to record.
Lookup takes the first binding, like a keyed table. -/
def storeFind {α : Type} : List (String × α) → String → Option α
  | [], _ => none
  | (k, v) :: rest, id => if k == id then some v else storeFind rest id

/-- Rewrite the value bound to `id` in place; ids and order are unchanged. -/
def storeUpdateRec {α : Type} : List (String × α) → String → (α → α) → List (String × α)
  | [], _, _ => []
  | (k, v) :: rest, id, f =>
    (if k == id then (k, f v) else (k, v)) :: storeUpdateRec rest id f

/-- `payload.update`: throws on an unknown id, otherwise commits the new
record and returns it. -/
def storeUpdate {α : Type} (s : List (String × α)) (id : String) (f : α → α) :
    Except Err (List (String × α) × α) :=
  match storeFind s id with
  | none => Except.error ⟨"Not Found"⟩
  | some r => Except.ok (storeUpdateRec s id f, f r)

/-- Sequentially committed updates for a list of ids (the committed prefix of
a bulk update). -/
def commitSeq {α : Type} (f : α → α) (s : List (String × α)) (ids : List String) :
    List (String × α) :=
  ids.foldl (fun st id => storeUpdateRec st id f) s

/-- The post status enum. -/
inductive PStatus
  | draft
  | published
  deriving DecidableEq

/-- The string interpolated into the toggle success message. -/
def PStatus.toMsg : PStatus → String
  | PStatus.draft => "draft"
  | PStatus.published => "published"

/-- A stored blog post. -/
structure PostRec where
  title : String
  slug : String
  content : String
  excerpt : String
  author : String
  category : String
  status : PStatus
  featured : Bool
  publishedDate : Option String
  readTime : Int
  deriving DecidableEq

/-- A stored product. -/
structure ProductRec where
  name : String
  slug : String
  description : String
  price : Rat
  category : String
  inStock : Bool
  featured : Bool
  inventory : Int
  deriving DecidableEq

/-- The uniform result envelope returned by every server action. -/
structure ActionResult where
  success : Bool
  message : Option String
  error : Option String
  deriving DecidableEq

/-- An action failure envelope carrying an error message. -/
def failAR (m : String) : ActionResult :=
  { success := false, message := none, error := some m }

/-- JS falsiness of an optional date string (`!post.publishedDate`). -/
def falsyDate (o : Option String) : Bool :=
  falsyS o

/-- `post.status === 'published' ? 'draft' : 'published'`. -/
def flipStatus (st : PStatus) : PStatus :=
  if st == PStatus.published then PStatus.draft else PStatus.published

/-- `togglePostStatus` server action: fetch the post, flip its status, write
it back (setting `publishedDate` to the current time when publishing a post
that has none); `now` is the value of `new Date().toISOString()`. -/
def togglePostStatus (now : String) (s : List (String × PostRec)) (id : String) :
    List (String × PostRec) × ActionResult :=
  match storeFind s id with
  | none => (s, failAR (msgOr ⟨"Not Found"⟩ "Failed to toggle post status"))
  | some post =>
    let newStatus := flipStatus post.status
    match storeUpdate s id (fun r =>
        let r1 := { r with status := newStatus }
        if newStatus == PStatus.published && falsyDate post.publishedDate then
          { r1 with publishedDate := some now }
        else r1) with
    | Except.error e => (s, failAR (msgOr e "Failed to toggle post status"))
    | Except.ok (s1, updated) =>
      (s1, { success := true,
             message := some ("Post is now " ++ updated.status.toMsg),
             error := none })

/-- `togglePostFeatured` server action. -/
def togglePostFeatured (s : List (String × PostRec)) (id : String) :
    List (String × PostRec) × ActionResult :=
  match storeFind s id with
  | none => (s, failAR (msgOr ⟨"Not Found"⟩ "Failed to toggle post featured status"))
  | some post =>
    match storeUpdate s id (fun r => { r with featured := !post.featured }) with
    | Except.error e => (s, failAR (msgOr e "Failed to toggle post featured status"))
    | Except.ok (s1, updated) =>
      (s1, { success := true,
             message := some ("Post is now " ++ (if updated.featured then "featured" else "not featured")),
             error := none })

/-- `toggleProductStock` server action. -/
def toggleProductStock (s : List (String × ProductRec)) (id : String) :
    List (String × ProductRec) × ActionResult :=
  match storeFind s id with
  | none => (s, failAR (msgOr ⟨"Not Found"⟩ "Failed to toggle product stock"))
  | some product =>
    match storeUpdate s id (fun r => { r with inStock := !product.inStock }) with
    | Except.error e => (s, failAR (msgOr e "Failed to toggle product stock"))
    | Except.ok (s1, updated) =>
      (s1, { success := true,
             message := some ("Product is now " ++ (if updated.inStock then "in stock" else "out of stock")),
             error := none })

/-- `toggleProductFeatured` server action. -/
def toggleProductFeatured (s : List (String × ProductRec)) (id : String) :
    List (String × ProductRec) × ActionResult :=
  match storeFind s id with
  | none => (s, failAR (msgOr ⟨"Not Found"⟩ "Failed to toggle product featured status"))
  | some product =>
    match storeUpdate s id (fun r => { r with featured := !product.featured }) with
    | Except.error e => (s, failAR (msgOr e "Failed to toggle product featured status"))
    | Except.ok (s1, updated) =>
      (s1, { success := true,
             message := some ("Product is now " ++ (if updated.featured then "featured" else "not featured")),
             error := none })

/-- The partial update passed to `bulkUpdatePosts`. -/
structure PostUpdates where
  category : Option String
  featured : Option Bool
  status : Option PStatus
  deriving DecidableEq

/-- Merge a partial posts update into a stored record (fields present in the
update data overwrite; absent fields are untouched). -/
def applyPostUpdates (u : PostUpdates) (r : PostRec) : PostRec :=
  { r with category := u.category.getD r.category,
           featured := u.featured.getD r.featured,
           status := u.status.getD r.status }

/-- The partial update passed to `bulkUpdateProducts`. -/
structure ProductUpdates where
  category : Option String
  featured : Option Bool
  inStock : Option Bool
  deriving DecidableEq

/-- Merge a partial products update into a stored record. -/
def applyProductUpdates (u : ProductUpdates) (r : ProductRec) : ProductRec :=
  { r with category := u.category.getD r.category,
           featured := u.featured.getD r.featured,
           inStock := u.inStock.getD r.inStock }

/-- The sequential loop shared by the two bulk-update actions: one
`payload.update` per id in list order; the first throw stops the loop.
Returns the store (with the committed prefix applied), the ids written in
order, and either the number of updated records or the thrown error. -/
def bulkRun {α : Type} (f : α → α) :
    List (String × α) → List String → List (String × α) × List String × Except Err Nat
  | s, [] => (s, [], Except.ok 0)
  | s, id :: rest =>
    match storeUpdate s id f with
    | Except.error e => (s, [], Except.error e)
    | Except.ok (s1, _) =>
      let (s2, log, r) := bulkRun f s1 rest
      (s2, id :: log, r.map (· + 1))

/-- `bulkUpdatePosts` server action. -/
def bulkUpdatePosts (s : List (String × PostRec)) (ids : List String) (u : PostUpdates) :
    List (String × PostRec) × List String × ActionResult :=
  match bulkRun (applyPostUpdates u) s ids with
  | (s1, log, Except.ok n) =>
    (s1, log, { success := true,
                message := some (toString n ++ " posts updated successfully"),
                error := none })
  | (s1, log, Except.error e) =>
    (s1, log, failAR (msgOr e "Failed to bulk update posts"))

/-- `bulkUpdateProducts` server action. -/
def bulkUpdateProducts (s : List (String × ProductRec)) (ids : List String) (u : ProductUpdates) :
    List (String × ProductRec) × List String × ActionResult :=
  match bulkRun (applyProductUpdates u) s ids with
  | (s1, log, Except.ok n) =>
    (s1, log, { success := true,
                message := some (toString n ++ " products updated successfully"),
                error := none })
  | (s1, log, Except.error e) =>
    (s1, log, failAR (msgOr e "Failed to bulk update products"))

/-- `updateProductInventory` server action: rejects a negative inventory
before touching the store, otherwise issues one write setting `inventory`
and `inStock: inventory > 0` together. -/
def updateProductInventory (s : List (String × ProductRec)) (id : String) (inventory : Int) :
    List (String × ProductRec) × ActionResult :=
  if inventory < 0 then
    (s, failAR "Inventory cannot be negative")
  else
    match storeUpdate s id (fun r =>
        { r with inventory := inventory, inStock := decide (inventory > 0) }) with
    | Except.error e => (s, failAR (msgOr e "Failed to update inventory"))
    | Except.ok (s1, _) =>
      (s1, { success := true, message := some "Inventory updated successfully", error := none })

/-- The paginated result set returned by the store (docs kept opaque). -/
structure PagResult where
  docs : List String
  page : Int
  limit : Int
  totalPages : Int
  totalDocs : Int
  deriving DecidableEq

/-- The JSON envelope serialized by a route handler, with its HTTP status. -/
structure RouteResp where
  success : Bool
  status : Nat
  error : Option String
  data : Option (List String)
  pagination : Option (Int × Int × Int × Int)
  deriving DecidableEq

/-- The success envelope of a GET handler. -/
def okResp (r : PagResult) : RouteResp :=
  { success := true, status := 200, error := none, data := some r.docs,
    pagination := some (r.page, r.limit, r.totalPages, r.totalDocs) }

/-- A failure envelope with an HTTP status. -/
def errResp (status : Nat) (m : String) : RouteResp :=
  { success := false, status := status, error := some m, data := none, pagination := none }

/-- `GET /api/examples/posts`, parametrized by the store's response to the one
`find` call the handler issues; the surrounding try/catch turns a thrown error
into a 500 envelope carrying `error.message || 'Failed to fetch posts'`. -/
def postsGET (find : FindCall → Except Err PagResult) (p : PostsParams) : RouteResp :=
  match find (postsGETcall p) with
  | Except.ok r => okResp r
  | Except.error e => errResp 500 (msgOr e "Failed to fetch posts")

/-- `GET /api/examples/products`. -/
def productsGET (find : FindCall → Except Err PagResult) (p : ProductsParams) : RouteResp :=
  match find (productsGETcall p) with
  | Except.ok r => okResp r
  | Except.error e => errResp 500 (msgOr e "Failed to fetch products")

/-- The request body of `POST /api/examples/posts` / `createPost` (only the
validated fields; the body is otherwise passed through to the store). -/
structure PostBody where
  title : Option String
  slug : Option String
  content : Option String
  excerpt : Option String
  author : Option String
  category : Option String
  deriving DecidableEq

/-- `!body.title || !body.slug || !body.content || !body.excerpt ||
!body.author || !body.category`. -/
def postReqFalsy (b : PostBody) : Bool :=
  falsyS b.title || falsyS b.slug || falsyS b.content || falsyS b.excerpt ||
    falsyS b.author || falsyS b.category

/-- The request body of `POST /api/examples/products` / `createProduct`. -/
structure ProductBody where
  name : Option String
  slug : Option String
  description : Option String
  price : Option Rat
  category : Option String
  deriving DecidableEq

/-- `!formData.name || !formData.slug || !formData.price || !formData.category`
(note: the price check is JS falsiness of a number, so `0` fails it). -/
def productReqFalsy (b : ProductBody) : Bool :=
  falsyS b.name || falsyS b.slug || falsyN b.price || falsyS b.category

/-- `POST /api/examples/posts`: validate, then create.  The second component
records whether the store create operation was invoked; `create` is the
store's response to that single call (the created doc kept opaque). -/
def postsPOST (create : Except Err String) (b : PostBody) : RouteResp × Bool :=
  if postReqFalsy b then
    (errResp 400 "Missing required fields: title, slug, content, excerpt, author, category", false)
  else
    match create with
    | Except.ok doc =>
      ({ success := true, status := 200, error := none, data := some [doc], pagination := none },
        true)
    | Except.error e => (errResp 500 (msgOr e "Failed to create post"), true)

/-- `POST /api/examples/products`. -/
def productsPOST (create : Except Err String) (b : ProductBody) : RouteResp × Bool :=
  if productReqFalsy b then
    (errResp 400 "Missing required fields: name, slug, price, category", false)
  else
    match create with
    | Except.ok doc =>
      ({ success := true, status := 200, error := none, data := some [doc], pagination := none },
        true)
    | Except.error e => (errResp 500 (msgOr e "Failed to create product"), true)

/-- `createPost` server action: same validation, action envelope instead of
an HTTP response. -/
def createPostAction (create : Except Err String) (b : PostBody) : ActionResult × Bool :=
  if postReqFalsy b then
    (failAR "Missing required fields: title, slug, content, excerpt, author, category", false)
  else
    match create with
    | Except.ok _ =>
      ({ success := true, message := some "Post created successfully", error := none }, true)
    | Except.error e => (failAR (msgOr e "Failed to create post"), true)

/-- `createProduct` server action. -/
def createProductAction (create : Except Err String) (b : ProductBody) : ActionResult × Bool :=
  if productReqFalsy b then
    (failAR "Missing required fields: name, slug, price, category", false)
  else
    match create with
    | Except.ok _ =>
      ({ success := true, message := some "Product created successfully", error := none }, true)
    | Except.error e => (failAR (msgOr e "Failed to create product"), true)

/-- A route/action output is a well-formed result envelope: it reports a
success flag, and a failure always carries an error message. -/
def envOK (r : RouteResp) : Prop :=
  r.success = true ∨ (r.success = false ∧ r.error ≠ none)

/-- Envelope well-formedness for action results. -/
def envOKA (a : ActionResult) : Prop :=
  a.success = true ∨ (a.success = false ∧ a.error ≠ none)

/-- Outcome of a preview/draft route: a 403 (body "You are not allowed to
preview this page"), a 404 with its response body, or a redirect. -/
inductive PreviewOutcome
  | forbidden
  | notFound (body : String)
  | redirectTo (path : String)
  deriving DecidableEq

/-- `GET /next/preview` (the second document of
`app/(my-app)/examples/local-api/page.tsx`, lines 292-364): reject with 404
"No path provided" when the `path` parameter is falsy — before any token
check; with no (or an empty) `payload-token` cookie, disable draft mode and
return 403; verify the token as a JWT against the server secret — a throwing
verification or a falsy decoded user disables draft mode and returns 403;
when `collection` and `slug` are both truthy, run the draft-aware existence
`find` — an empty result set returns 404 "Document not found", while a
thrown `find` error is only logged and falls through; finally enable draft
mode and redirect to `path` verbatim.  `find` returns the result's
`docs.length` (or the thrown error), `jwtVerify` the decoded user (`none` for
a falsy decode, `Except.error` for a throw), `draft` is the process-wide
draft-mode flag on entry; the second component of the result is the flag on
exit. -/
def previewGET (find : String → String → Except Err Nat)
    (jwtVerify : String → Except Err (Option String))
    (draft : Bool) (token path collection slug : Option String) :
    PreviewOutcome × Bool :=
  match path with
  | none => (PreviewOutcome.notFound "No path provided", draft)
  | some p =>
    if p == "" then (PreviewOutcome.notFound "No path provided", draft)
    else
      match token with
      | none => (PreviewOutcome.forbidden, false)
      | some t =>
        if t == "" then (PreviewOutcome.forbidden, false)
        else
          match jwtVerify t with
          | Except.error _ => (PreviewOutcome.forbidden, false)
          | Except.ok none => (PreviewOutcome.forbidden, false)
          | Except.ok (some _) =>
            match collection, slug with
            | some c, some sl =>
              if c == "" || sl == "" then (PreviewOutcome.redirectTo p, true)
              else
                match find c sl with
                | Except.ok n =>
                  if n == 0 then (PreviewOutcome.notFound "Document not found", draft)
                  else (PreviewOutcome.redirectTo p, true)
                | Except.error _ => (PreviewOutcome.redirectTo p, true)
            | _, _ => (PreviewOutcome.redirectTo p, true)

/-- A concrete existence check: exactly the document `posts/x` exists. -/
def pvFind0 : String → String → Except Err Nat :=
  fun c sl => if c == "posts" && sl == "x" then Except.ok 1 else Except.ok 0

/-- A concrete JWT verifier: exactly the token "good" verifies. -/
def pvJwt0 : String → Except Err (Option String) :=
  fun t => if t == "good" then Except.ok (some "user") else Except.error ⟨"bad token"⟩

/-- `GET /next/exit-draft`: unconditionally disable draft mode, then redirect
to `searchParams.get('path') || '/'` taken verbatim.  The first component is
the draft-mode flag after the request (`draft` is the flag before it), the
second the redirect target. -/
def exitDraftGET (draft : Bool) (path : Option String) : Bool × String :=
  (false, match path with
    | none => "/"
    | some p => if p == "" then "/" else p)

/-- The price predicates occurring in a top-level and-list. -/
def priceClauses (l : List Clause) : List Cond :=
  l.filterMap (fun cl => match cl with
    | Clause.cond c => if isPriceCond c then some c else none
    | Clause.orOf _ => none)

/-- A sample stored post used to instantiate theorems on concrete inputs. -/
def post0 : PostRec :=
  { title := "Hello", slug := "hello", content := "body", excerpt := "ex",
    author := "Ann", category := "general", status := PStatus.draft,
    featured := false, publishedDate := none, readTime := 3 }

/-- A sample stored product. -/
def product0 : ProductRec :=
  { name := "Widget", slug := "widget", description := "a widget", price := 5,
    category := "tools", inStock := true, featured := false, inventory := 2 }

/-- A posts create body whose declared-required fields are all present and
non-falsy. -/
def pbFull : PostBody :=
  { title := some "Hello", slug := some "hello", content := some "body",
    excerpt := some "ex", author := some "Ann", category := some "general" }

/-- A products create body with every declared-required field present but
`price = 0` (a falsy number). -/
def qbZero : ProductBody :=
  { name := some "Widget", slug := some "widget", description := some "d",
    price := some 0, category := some "tools" }

/-- The posts request `?category=&status=draft`: category present but empty. -/
def pEmptyCat : PostsParams :=
  { page := none, limit := none, category := some "", status := some "draft",
    featured := none, author := none, tag := none, search := none }

/-- A posts request with every filter parameter present and non-empty. -/
def pAllFilters : PostsParams :=
  { page := none, limit := none, category := some "technology",
    status := some "published", featured := some "true", author := some "John",
    tag := some "news", search := some "nextjs" }

/-- A products request with every filter parameter present and non-empty. -/
def qAllFilters : ProductsParams :=
  { page := none, limit := none, category := some "electronics",
    inStock := some "true", featured := some "false", minPrice := some "10",
    maxPrice := some "99.5", search := some "laptop" }

/-- The products request `?category=electronics&minPrice=`:
minPrice present but empty. -/
def qEmptyMin : ProductsParams :=
  { page := none, limit := none, category := some "electronics",
    inStock := none, featured := none, minPrice := some "", maxPrice := none,
    search := none }

/-- The posts request `?page=abc&limit=xyz`: pagination parameters present but
non-numeric. -/
def pBadPage : PostsParams :=
  { page := some "abc", limit := some "xyz", category := none, status := none,
    featured := none, author := none, tag := none, search := none }

theorem not_isSome_option {α : Type} (o : Option α) : (!o.isSome) = o.isNone := by
  cases o <;> rfl

theorem truthy_eq_isSome (o : Option String) (h : neOpt o = true) :
    truthy o = o.isSome := by
  cases o with
  | none => rfl
  | some s =>
    simp only [neOpt, Bool.not_eq_true'] at h
    simp [truthy, h]

theorem condIf_eq_condAlways (o : Option String) (h : neOpt o = true) (f : String → Cond) :
    condIf o f = condAlways o f := by
  cases o with
  | none => rfl
  | some s =>
    simp only [neOpt, Bool.not_eq_true'] at h
    simp [condIf, condAlways, h]

theorem boundIf_eq_map (o : Option String) (h : neOpt o = true) :
    boundIf o = o.map jsParseFloat := by
  cases o with
  | none => rfl
  | some s =>
    simp only [neOpt, Bool.not_eq_true'] at h
    simp [boundIf, h]

theorem postsSearchClause_eq (p : PostsParams) (h : neOpt p.search = true) :
    postsSearchClause p = (match p.search with
      | some s => [Clause.orOf [Cond.contains "title" s, Cond.contains "excerpt" s,
          Cond.contains "content" s]]
      | none => []) := by
  cases hs : p.search with
  | none => simp [postsSearchClause, hs]
  | some s =>
    rw [hs] at h
    simp only [neOpt, Bool.not_eq_true'] at h
    simp [postsSearchClause, hs, h]

theorem productsSearchClause_eq (p : ProductsParams) (h : neOpt p.search = true) :
    productsSearchClause p = (match p.search with
      | some s => [Clause.orOf [Cond.contains "name" s, Cond.contains "description" s]]
      | none => []) := by
  cases hs : p.search with
  | none => simp [productsSearchClause, hs]
  | some s =>
    rw [hs] at h
    simp only [neOpt, Bool.not_eq_true'] at h
    simp [productsSearchClause, hs, h]

theorem priceConds_eq (p : ProductsParams) (hmin : neOpt p.minPrice = true)
    (hmax : neOpt p.maxPrice = true) :
    priceConds p = (if p.minPrice.isSome || p.maxPrice.isSome then
      [Cond.priceRange (p.minPrice.map jsParseFloat) (p.maxPrice.map jsParseFloat)]
    else []) := by
  rw [priceConds, truthy_eq_isSome _ hmin, truthy_eq_isSome _ hmax,
    boundIf_eq_map _ hmin, boundIf_eq_map _ hmax]

theorem postsNoFilters_eq (p : PostsParams) (h : postsNE p = true) :
    postsNoFilters p = (p.category.isNone && p.status.isNone && p.featured.isNone &&
      p.author.isNone && p.tag.isNone && p.search.isNone) := by
  simp only [postsNE, Bool.and_eq_true] at h
  obtain ⟨⟨⟨⟨⟨h1, h2⟩, h3⟩, h4⟩, h5⟩, h6⟩ := h
  rw [postsNoFilters, truthy_eq_isSome _ h1, truthy_eq_isSome _ h2,
    truthy_eq_isSome _ h3, truthy_eq_isSome _ h4, truthy_eq_isSome _ h5,
    truthy_eq_isSome _ h6, not_isSome_option, not_isSome_option, not_isSome_option,
    not_isSome_option, not_isSome_option, not_isSome_option]

theorem productsNoFilters_eq (p : ProductsParams) (h : productsNE p = true) :
    productsNoFilters p = (p.category.isNone && p.inStock.isNone && p.featured.isNone &&
      p.minPrice.isNone && p.maxPrice.isNone && p.search.isNone) := by
  simp only [productsNE, Bool.and_eq_true] at h
  obtain ⟨⟨⟨⟨⟨h1, h2⟩, h3⟩, h4⟩, h5⟩, h6⟩ := h
  rw [productsNoFilters, truthy_eq_isSome _ h1, truthy_eq_isSome _ h2,
    truthy_eq_isSome _ h3, truthy_eq_isSome _ h4, truthy_eq_isSome _ h5,
    truthy_eq_isSome _ h6, not_isSome_option, not_isSome_option, not_isSome_option,
    not_isSome_option, not_isSome_option, not_isSome_option]


/-- Claim C1, counterexample: with `category` present but empty (`?category=`)
and `status=draft`, the posts route assembles a conjunction containing only the
status predicate — the present `category` parameter contributes no predicate,
and the spec-side filter disagrees — refuting "exactly one predicate per
present parameter" as stated. -/
theorem C1_counterexample :
    (postsGETcall pEmptyCat).whereArg
      = some [Clause.cond (Cond.equals "status" (FVal.str "draft"))] ∧
    specPostsWhere pEmptyCat
      = some [Clause.cond (Cond.equals "category" (FVal.str "")),
          Clause.cond (Cond.equals "status" (FVal.str "draft"))] ∧
    (postsGETcall pEmptyCat).whereArg ≠ specPostsWhere pEmptyCat := by
  decide

/-- Claim C1 (amended: restricted to requests in which every present filter
parameter has a non-empty value): the where clause each GET route hands the
store equals the spec-side clause — a strict conjunction with exactly one
predicate per present parameter (category/status/tag as equals, featured and
inStock as boolean equals against the string "true", author as contains, the
price bounds jointly as the single range predicate of C7), no predicate for
any absent parameter, and, when a search term is present, one extra disjunction
over the text fields appended to the conjunction, with `or` nowhere else. -/
theorem C1_filter_assembly (p : PostsParams) (q : ProductsParams)
    (hp : postsNE p = true) (hq : productsNE q = true) :
    (postsGETcall p).whereArg = specPostsWhere p ∧
    (productsGETcall q).whereArg = specProductsWhere q := by
  constructor
  · have hg := postsNoFilters_eq p hp
    simp only [postsNE, Bool.and_eq_true] at hp
    obtain ⟨⟨⟨⟨⟨h1, h2⟩, h3⟩, h4⟩, h5⟩, h6⟩ := hp
    by_cases hb : (p.category.isNone && p.status.isNone && p.featured.isNone &&
        p.author.isNone && p.tag.isNone && p.search.isNone) = true
    · rw [postsGETcall, hg, if_pos hb, specPostsWhere, if_pos hb]
    · rw [postsGETcall, hg, if_neg hb, specPostsWhere, if_neg hb, postsConditions,
        condIf_eq_condAlways p.category h1, condIf_eq_condAlways p.status h2,
        condIf_eq_condAlways p.author h4, condIf_eq_condAlways p.tag h5,
        postsSearchClause_eq p h6]
  · have hg := productsNoFilters_eq q hq
    simp only [productsNE, Bool.and_eq_true] at hq
    obtain ⟨⟨⟨⟨⟨h1, h2⟩, h3⟩, h4⟩, h5⟩, h6⟩ := hq
    by_cases hb : (q.category.isNone && q.inStock.isNone && q.featured.isNone &&
        q.minPrice.isNone && q.maxPrice.isNone && q.search.isNone) = true
    · rw [productsGETcall, hg, if_pos hb, specProductsWhere, if_pos hb]
    · rw [productsGETcall, hg, if_neg hb, specProductsWhere, if_neg hb,
        productsConditions, condIf_eq_condAlways q.category h1,
        priceConds_eq q h4 h5, productsSearchClause_eq q h6]

/-- Claim C1, witness: the amended theorem evaluated at concrete requests with
every filter parameter present and non-empty. -/
theorem C1_filter_assembly_witness :
    (postsGETcall pAllFilters).whereArg = specPostsWhere pAllFilters ∧
    (productsGETcall qAllFilters).whereArg = specProductsWhere qAllFilters :=
  C1_filter_assembly pAllFilters qAllFilters (by decide) (by decide)

/-- Claim C2, counterexample: `?page=abc&limit=xyz` does not fall back to the
defaults — the values handed to the store are `NaN` (modelled `none`), not
1 and 10. -/
theorem C2_counterexample :
    (postsGETcall pBadPage).page = none ∧
    (postsGETcall pBadPage).limit = none ∧
    (postsGETcall pBadPage).page ≠ some 1 ∧
    (postsGETcall pBadPage).limit ≠ some 10 := by
  decide

/-- Claim C2 (amended): the page and limit values passed to the store default
to 1 and 10 when the query parameter is absent or present-but-empty; a present
non-empty parameter is passed through `parseInt` verbatim, so a non-numeric
value reaches the store as `NaN` (modelled `none`), not as the default. -/
theorem C2_pagination_defaults (p : PostsParams) (q : ProductsParams) (s : String) :
    pageParam none = some 1 ∧ limitParam none = some 10 ∧
    pageParam (some "") = some 1 ∧ limitParam (some "") = some 10 ∧
    (s ≠ "" → pageParam (some s) = jsParseInt s ∧ limitParam (some s) = jsParseInt s) ∧
    (postsGETcall p).page = pageParam p.page ∧
    (postsGETcall p).limit = limitParam p.limit ∧
    (productsGETcall q).page = pageParam q.page ∧
    (productsGETcall q).limit = limitParam q.limit := by
  refine ⟨by decide, by decide, by decide, by decide, ?_, ?_, ?_, ?_, ?_⟩
  · intro h
    constructor <;> simp [pageParam, limitParam, h]
  · rw [postsGETcall]; split <;> rfl
  · rw [postsGETcall]; split <;> rfl
  · rw [productsGETcall]; split <;> rfl
  · rw [productsGETcall]; split <;> rfl

/-- Claim C2, witness: the amended theorem evaluated at the concrete
non-numeric request. -/
theorem C2_pagination_defaults_witness :
    pageParam (some "abc") = jsParseInt "abc" ∧
    limitParam (some "abc") = jsParseInt "abc" :=
  (C2_pagination_defaults pBadPage qAllFilters "abc").2.2.2.2.1 (by decide)

theorem priceClauses_append (a b : List Clause) :
    priceClauses (a ++ b) = priceClauses a ++ priceClauses b := by
  simp [priceClauses, List.filterMap_append]

theorem priceClauses_map_cond (l : List Cond) :
    priceClauses (l.map Clause.cond) = l.filter isPriceCond := by
  induction l with
  | nil => rfl
  | cons c t ih =>
    cases hc : isPriceCond c <;>
      simp [priceClauses, List.filterMap_cons, List.filter_cons, hc] <;>
      simpa [priceClauses] using ih

theorem priceClauses_searchClause (p : ProductsParams) :
    priceClauses (productsSearchClause p) = [] := by
  rw [productsSearchClause]
  cases p.search with
  | none => rfl
  | some s => by_cases he : s = "" <;> simp [priceClauses, he]

theorem filter_price_condIf (o : Option String) (f : String → Cond)
    (h : ∀ v, isPriceCond (f v) = false) :
    (condIf o f).filter isPriceCond = [] := by
  cases o with
  | none => rfl
  | some v =>
    by_cases he : v = "" <;> simp [condIf, List.filter_cons, he, h v]

theorem filter_price_condAlways (o : Option String) (f : String → Cond)
    (h : ∀ v, isPriceCond (f v) = false) :
    (condAlways o f).filter isPriceCond = [] := by
  cases o with
  | none => rfl
  | some v => simp [condAlways, List.filter_cons, h v]

theorem filter_price_priceConds (p : ProductsParams) :
    (priceConds p).filter isPriceCond = priceConds p := by
  rw [priceConds]
  split <;> simp [isPriceCond]

theorem filter_price_productsConditions (p : ProductsParams) :
    (productsConditions p).filter isPriceCond = priceConds p := by
  rw [productsConditions, List.filter_append, List.filter_append, List.filter_append,
    filter_price_condIf p.category (fun c => Cond.equals "category" (FVal.str c))
      (fun v => rfl),
    filter_price_condAlways p.inStock
      (fun v => Cond.equals "inStock" (FVal.bool (v == "true"))) (fun v => rfl),
    filter_price_condAlways p.featured
      (fun f => Cond.equals "featured" (FVal.bool (f == "true"))) (fun v => rfl),
    filter_price_priceConds]
  simp

/-- Claim C7, counterexample: `?category=electronics&minPrice=` — minPrice is
present (empty), a filter is assembled, yet it contains no price predicate,
refuting the claim as stated for present-but-empty bounds. -/
theorem C7_counterexample :
    (productsGETcall qEmptyMin).whereArg
      = some [Clause.cond (Cond.equals "category" (FVal.str "electronics"))] ∧
    qEmptyMin.minPrice = some "" ∧
    priceClauses [Clause.cond (Cond.equals "category" (FVal.str "electronics"))] = [] := by
  decide

/-- Claim C7 (amended: restricted to present bounds with non-empty values):
whenever the products route assembles a filter, that filter contains exactly
one price predicate when minPrice and/or maxPrice is present — with the
inclusive `greater_than_equal` bound set to the parsed minPrice exactly when
minPrice is present and the inclusive `less_than_equal` bound set to the
parsed maxPrice exactly when maxPrice is present, both bounds living in the
same single predicate — and no price predicate when neither is present;
moreover a present bound forces a filter to be assembled at all. -/
theorem C7_price_range (p : ProductsParams)
    (hmin : neOpt p.minPrice = true) (hmax : neOpt p.maxPrice = true) :
    (∀ l, (productsGETcall p).whereArg = some l →
      priceClauses l = (if p.minPrice.isSome || p.maxPrice.isSome then
        [Cond.priceRange (p.minPrice.map jsParseFloat) (p.maxPrice.map jsParseFloat)]
      else [])) ∧
    ((p.minPrice.isSome || p.maxPrice.isSome) = true →
      ((productsGETcall p).whereArg).isSome = true) := by
  cases hnf : productsNoFilters p with
  | true =>
    have hconj := hnf
    simp only [productsNoFilters, Bool.and_eq_true, Bool.not_eq_true'] at hconj
    obtain ⟨⟨⟨⟨⟨t1, t2⟩, t3⟩, t4⟩, t5⟩, t6⟩ := hconj
    have hmin' : p.minPrice.isSome = false := by
      rw [← truthy_eq_isSome p.minPrice hmin]; exact t4
    have hmax' : p.maxPrice.isSome = false := by
      rw [← truthy_eq_isSome p.maxPrice hmax]; exact t5
    constructor
    · intro l hl
      simp [productsGETcall, hnf] at hl
    · intro hsome
      rw [hmin', hmax'] at hsome
      simp at hsome
  | false =>
    have hwa : (productsGETcall p).whereArg
        = some ((productsConditions p).map Clause.cond ++ productsSearchClause p) := by
      simp [productsGETcall, hnf]
    constructor
    · intro l hl
      have hL := Option.some.inj (hwa.symm.trans hl)
      subst hL
      rw [priceClauses_append, priceClauses_map_cond, priceClauses_searchClause,
        filter_price_productsConditions, List.append_nil, priceConds_eq p hmin hmax]
    · intro _
      rw [hwa]
      rfl

/-- Claim C7, witness: the amended theorem evaluated at the concrete request
`?minPrice=10&maxPrice=99.5` (among other filters). -/
theorem C7_price_range_witness :
    ((productsGETcall qAllFilters).whereArg).isSome = true ∧
    ∃ l, (productsGETcall qAllFilters).whereArg = some l ∧
      priceClauses l
        = [Cond.priceRange (some (jsParseFloat "10")) (some (jsParseFloat "99.5"))] := by
  have hs := (C7_price_range qAllFilters (by decide) (by decide)).2 (by decide)
  refine ⟨hs, ?_⟩
  obtain ⟨l, hl⟩ := Option.isSome_iff_exists.mp hs
  refine ⟨l, hl, ?_⟩
  rw [(C7_price_range qAllFilters (by decide) (by decide)).1 l hl]
  simp [qAllFilters]

theorem storeFind_updateRec {α : Type} (s : List (String × α)) (id j : String) (f : α → α) :
    storeFind (storeUpdateRec s id f) j
      = if j == id then (storeFind s j).map f else storeFind s j := by
  induction s with
  | nil => cases hji : j == id <;> simp [storeFind, storeUpdateRec, hji]
  | cons kv rest ih =>
    obtain ⟨k, v⟩ := kv
    rw [storeUpdateRec]
    by_cases hki : k = id
    · subst hki
      rw [if_pos (by simp : (k == k) = true)]
      by_cases hkj : k = j
      · subst hkj
        simp [storeFind]
      · have hjk : ¬(j = k) := fun h => hkj h.symm
        simp [storeFind, hkj, hjk, ih]
    · rw [if_neg (by simp [hki] : ¬((k == id) = true))]
      by_cases hkj : k = j
      · subst hkj
        simp [storeFind, hki]
      · simp [storeFind, hkj, ih]

theorem storeFind_updateRec_isSome {α : Type} (s : List (String × α)) (a id : String)
    (f : α → α) :
    (storeFind (storeUpdateRec s a f) id).isSome = (storeFind s id).isSome := by
  rw [storeFind_updateRec]
  cases id == a <;> cases storeFind s id <;> simp

theorem storeFind_self_update {α : Type} (s : List (String × α)) (id : String)
    (f : α → α) (r : α) (h : storeFind s id = some r) :
    storeFind (storeUpdateRec s id f) id = some (f r) := by
  rw [storeFind_updateRec]
  simp [h]

theorem bulkRun_fail {α : Type} (f : α → α) :
    ∀ (ids : List String) (s : List (String × α)) (k : Nat) (hk : k < ids.length),
      (∀ id ∈ ids.take k, (storeFind s id).isSome = true) →
      storeFind s (ids.get ⟨k, hk⟩) = none →
      bulkRun f s ids = (commitSeq f s (ids.take k), ids.take k, Except.error ⟨"Not Found"⟩) := by
  intro ids
  induction ids with
  | nil =>
    intro s k hk
    exact absurd hk (by simp)
  | cons a rest ih =>
    intro s k hk hpre hbad
    cases k with
    | zero =>
      simp only [List.get] at hbad
      simp [bulkRun, storeUpdate, hbad, commitSeq]
    | succ k' =>
      have ha : (storeFind s a).isSome = true := hpre a (by simp)
      obtain ⟨r, hr⟩ := Option.isSome_iff_exists.mp ha
      have hk' : k' < rest.length := by simpa using hk
      have hpre' : ∀ id ∈ rest.take k',
          (storeFind (storeUpdateRec s a f) id).isSome = true := by
        intro id hid
        rw [storeFind_updateRec_isSome]
        exact hpre id (by simp [hid])
      have hbad' : storeFind (storeUpdateRec s a f) (rest.get ⟨k', hk'⟩) = none := by
        have hb : storeFind s (rest.get ⟨k', hk'⟩) = none := by
          simpa using hbad
        have hiso := storeFind_updateRec_isSome s a (rest.get ⟨k', hk'⟩) f
        rw [hb] at hiso
        cases hopt : storeFind (storeUpdateRec s a f) (rest.get ⟨k', hk'⟩) with
        | none => rfl
        | some w => rw [hopt] at hiso; simp at hiso
      have ihr := ih (storeUpdateRec s a f) k' hk' hpre' hbad'
      simp [bulkRun, storeUpdate, hr, ihr, commitSeq, Except.map, List.take_succ_cons]

/-- Claim C3 (confirmed): when the store update for the id at position `j`/`k`
throws (the id is unknown) and every earlier id exists, the bulk update
actions commit exactly one write per id of the strict prefix, in list order
(the write log is the prefix itself), issue no write for any later id (the
final store is exactly the sequentially committed prefix — no rollback), and
return a failure envelope for the whole action. -/
theorem C3_bulk_update (ps : List (String × PostRec)) (qs : List (String × ProductRec))
    (pids qids : List String) (pu : PostUpdates) (qu : ProductUpdates)
    (j k : Nat) (hj : j < pids.length) (hk : k < qids.length)
    (hjpre : ∀ id ∈ pids.take j, (storeFind ps id).isSome = true)
    (hjbad : storeFind ps (pids.get ⟨j, hj⟩) = none)
    (hkpre : ∀ id ∈ qids.take k, (storeFind qs id).isSome = true)
    (hkbad : storeFind qs (qids.get ⟨k, hk⟩) = none) :
    bulkUpdatePosts ps pids pu
      = (commitSeq (applyPostUpdates pu) ps (pids.take j), pids.take j,
          failAR "Not Found") ∧
    bulkUpdateProducts qs qids qu
      = (commitSeq (applyProductUpdates qu) qs (qids.take k), qids.take k,
          failAR "Not Found") := by
  constructor
  · rw [bulkUpdatePosts, bulkRun_fail (applyPostUpdates pu) pids ps j hj hjpre hjbad]
    simp [msgOr, failAR]
  · rw [bulkUpdateProducts, bulkRun_fail (applyProductUpdates qu) qids qs k hk hkpre hkbad]
    simp [msgOr, failAR]

/-- Claim C3, witness: bulk updates over `[id1, id2]` where only `id1` exists —
id1's write is committed, id2 and everything after is not, and the action
reports failure. -/
theorem C3_bulk_update_witness :
    bulkUpdatePosts [("p1", post0)] ["p1", "p2"] ⟨none, some true, none⟩
      = (commitSeq (applyPostUpdates ⟨none, some true, none⟩) [("p1", post0)] ["p1"],
          ["p1"], failAR "Not Found") ∧
    bulkUpdateProducts [("q1", product0)] ["q1", "q2"] ⟨none, some true, none⟩
      = (commitSeq (applyProductUpdates ⟨none, some true, none⟩) [("q1", product0)] ["q1"],
          ["q1"], failAR "Not Found") :=
  C3_bulk_update [("p1", post0)] [("q1", product0)] ["p1", "p2"] ["q1", "q2"]
    ⟨none, some true, none⟩ ⟨none, some true, none⟩ 1 1 (by decide) (by decide)
    (by decide) (by decide) (by decide) (by decide)

theorem flipStatus_flipStatus (st : PStatus) : flipStatus (flipStatus st) = st := by
  cases st <;> rfl

theorem togglePostStatus_find (now : String) (s : List (String × PostRec)) (id : String)
    (post : PostRec) (h : storeFind s id = some post) :
    ∃ p1 : PostRec, storeFind (togglePostStatus now s id).1 id = some p1 ∧
      p1.status = flipStatus post.status := by
  simp only [togglePostStatus, h, storeUpdate]
  refine ⟨_, storeFind_self_update s id _ post h, ?_⟩
  by_cases hc : (flipStatus post.status == PStatus.published && falsyDate post.publishedDate) = true
  · simp [hc]
  · simp [hc]

theorem togglePostFeatured_find (s : List (String × PostRec)) (id : String)
    (post : PostRec) (h : storeFind s id = some post) :
    storeFind (togglePostFeatured s id).1 id
      = some { post with featured := !post.featured } := by
  simp only [togglePostFeatured, h, storeUpdate]
  exact storeFind_self_update s id _ post h

theorem toggleProductStock_find (s : List (String × ProductRec)) (id : String)
    (product : ProductRec) (h : storeFind s id = some product) :
    storeFind (toggleProductStock s id).1 id
      = some { product with inStock := !product.inStock } := by
  simp only [toggleProductStock, h, storeUpdate]
  exact storeFind_self_update s id _ product h

theorem toggleProductFeatured_find (s : List (String × ProductRec)) (id : String)
    (product : ProductRec) (h : storeFind s id = some product) :
    storeFind (toggleProductFeatured s id).1 id
      = some { product with featured := !product.featured } := by
  simp only [toggleProductFeatured, h, storeUpdate]
  exact storeFind_self_update s id _ product h

/-- Claim C4 (confirmed): each toggle action performs a read-modify-write that
flips the toggled field of the stored record, and invoking the same toggle
twice in succession (no interleaved writes) returns that field to its
original value — for post status, post featured, product stock and product
featured. -/
theorem C4_toggle_involution (ps : List (String × PostRec)) (qs : List (String × ProductRec))
    (id now1 now2 : String) (post : PostRec) (product : ProductRec)
    (hp : storeFind ps id = some post) (hq : storeFind qs id = some product) :
    ((storeFind (togglePostStatus now1 ps id).1 id).map PostRec.status
        = some (flipStatus post.status) ∧
      (storeFind (togglePostStatus now2 (togglePostStatus now1 ps id).1 id).1 id).map
          PostRec.status = some post.status) ∧
    ((storeFind (togglePostFeatured ps id).1 id).map PostRec.featured
        = some (!post.featured) ∧
      (storeFind (togglePostFeatured (togglePostFeatured ps id).1 id).1 id).map
          PostRec.featured = some post.featured) ∧
    ((storeFind (toggleProductStock qs id).1 id).map ProductRec.inStock
        = some (!product.inStock) ∧
      (storeFind (toggleProductStock (toggleProductStock qs id).1 id).1 id).map
          ProductRec.inStock = some product.inStock) ∧
    ((storeFind (toggleProductFeatured qs id).1 id).map ProductRec.featured
        = some (!product.featured) ∧
      (storeFind (toggleProductFeatured (toggleProductFeatured qs id).1 id).1 id).map
          ProductRec.featured = some product.featured) := by
  obtain ⟨p1, hp1, hs1⟩ := togglePostStatus_find now1 ps id post hp
  obtain ⟨p2, hp2, hs2⟩ := togglePostStatus_find now2 _ id p1 hp1
  refine ⟨⟨?_, ?_⟩, ⟨?_, ?_⟩, ⟨?_, ?_⟩, ⟨?_, ?_⟩⟩
  · rw [hp1, Option.map_some', hs1]
  · rw [hp2, Option.map_some', hs2, hs1, flipStatus_flipStatus]
  · rw [togglePostFeatured_find ps id post hp]
    rfl
  · rw [togglePostFeatured_find _ id _ (togglePostFeatured_find ps id post hp)]
    simp
  · rw [toggleProductStock_find qs id product hq]
    rfl
  · rw [toggleProductStock_find _ id _ (toggleProductStock_find qs id product hq)]
    simp
  · rw [toggleProductFeatured_find qs id product hq]
    rfl
  · rw [toggleProductFeatured_find _ id _ (toggleProductFeatured_find qs id product hq)]
    simp

/-- Claim C4, witness: the toggles evaluated on concrete one-record stores. -/
theorem C4_toggle_involution_witness :
    ((storeFind (togglePostStatus "2025-01-01" [("a", post0)] "a").1 "a").map PostRec.status
        = some (flipStatus post0.status) ∧
      (storeFind (togglePostStatus "2025-01-02"
          (togglePostStatus "2025-01-01" [("a", post0)] "a").1 "a").1 "a").map
          PostRec.status = some post0.status) ∧
    ((storeFind (togglePostFeatured [("a", post0)] "a").1 "a").map PostRec.featured
        = some (!post0.featured) ∧
      (storeFind (togglePostFeatured (togglePostFeatured [("a", post0)] "a").1 "a").1 "a").map
          PostRec.featured = some post0.featured) ∧
    ((storeFind (toggleProductStock [("a", product0)] "a").1 "a").map ProductRec.inStock
        = some (!product0.inStock) ∧
      (storeFind (toggleProductStock (toggleProductStock [("a", product0)] "a").1 "a").1 "a").map
          ProductRec.inStock = some product0.inStock) ∧
    ((storeFind (toggleProductFeatured [("a", product0)] "a").1 "a").map ProductRec.featured
        = some (!product0.featured) ∧
      (storeFind (toggleProductFeatured (toggleProductFeatured [("a", product0)] "a").1 "a").1
          "a").map ProductRec.featured = some product0.featured) :=
  C4_toggle_involution [("a", post0)] [("a", product0)] "a" "2025-01-01" "2025-01-02"
    post0 product0 rfl rfl

/-- Claim C9 (confirmed): a negative inventory is rejected with a failure
envelope before any store operation (the store is returned unchanged);
otherwise the single write sets `inventory` and `inStock = inventory > 0`
together, so after every successful inventory update the stored record
satisfies `inStock` iff `inventory > 0`. -/
theorem C9_inventory_invariant (s : List (String × ProductRec)) (id : String) (inv : Int) :
    (inv < 0 → updateProductInventory s id inv = (s, failAR "Inventory cannot be negative")) ∧
    (0 ≤ inv → ∀ r, storeFind s id = some r →
      (updateProductInventory s id inv).2.success = true ∧
      storeFind (updateProductInventory s id inv).1 id
        = some { r with inventory := inv, inStock := decide (inv > 0) } ∧
      ∀ r1, storeFind (updateProductInventory s id inv).1 id = some r1 →
        (r1.inStock = true ↔ r1.inventory > 0)) := by
  constructor
  · intro hneg
    rw [updateProductInventory, if_pos hneg]
  · intro hpos r hr
    have hif : ¬(inv < 0) := not_lt.mpr hpos
    have h1 : updateProductInventory s id inv
        = (storeUpdateRec s id
            (fun r => { r with inventory := inv, inStock := decide (inv > 0) }),
           { success := true, message := some "Inventory updated successfully",
             error := none }) := by
      rw [updateProductInventory, if_neg hif]
      simp [storeUpdate, hr]
    refine ⟨by rw [h1], ?_, ?_⟩
    · rw [h1]
      exact storeFind_self_update s id _ r hr
    · intro r1 hr1
      rw [h1, storeFind_self_update s id _ r hr] at hr1
      have hr1' := (Option.some.inj hr1).symm
      subst hr1'
      simp [decide_eq_true_eq]

/-- Claim C9, witness: a rejected negative update leaves the store untouched,
and a successful update establishes the stock invariant on a concrete store. -/
theorem C9_inventory_invariant_witness :
    updateProductInventory [("a", product0)] "a" (-1)
      = ([("a", product0)], failAR "Inventory cannot be negative") ∧
    ((updateProductInventory [("a", product0)] "a" 7).2.success = true ∧
      storeFind (updateProductInventory [("a", product0)] "a" 7).1 "a"
        = some { product0 with inventory := 7, inStock := decide ((7 : Int) > 0) } ∧
      ∀ r1, storeFind (updateProductInventory [("a", product0)] "a" 7).1 "a" = some r1 →
        (r1.inStock = true ↔ r1.inventory > 0)) :=
  ⟨(C9_inventory_invariant [("a", product0)] "a" (-1)).1 (by decide),
   (C9_inventory_invariant [("a", product0)] "a" 7).2 (by decide) product0 rfl⟩

/-- Claim C5, counterexample: a products create body with every
declared-required field present but `price = 0` is rejected as "missing
required fields" without the store being called — presence of all required
fields does not imply validation passes, refuting the "if and only if". -/
theorem C5_counterexample :
    qbZero.name.isSome = true ∧ qbZero.slug.isSome = true ∧
    qbZero.price.isSome = true ∧ qbZero.category.isSome = true ∧
    (productsPOST (Except.ok "doc") qbZero).2 = false ∧
    (productsPOST (Except.ok "doc") qbZero).1
      = errResp 400 "Missing required fields: name, slug, price, category" ∧
    (createProductAction (Except.ok "doc") qbZero).2 = false ∧
    (createProductAction (Except.ok "doc") qbZero).1.success = false := by
  refine ⟨rfl, rfl, rfl, rfl, ?_, ?_, ?_, ?_⟩ <;>
    simp [productsPOST, createProductAction, productReqFalsy, qbZero, falsyN, failAR]

/-- Claim C5 (amended): the create route handlers and create actions return a
failure envelope (HTTP 400 for the routes) without calling the store if and
only if at least one declared-required field is absent or JS-falsy (an empty
string; for the product price, zero); when every declared-required field is
present and non-falsy, validation passes and the store create operation is
invoked. -/
theorem C5_required_fields (cP cQ : Except Err String) (pb : PostBody) (qb : ProductBody) :
    ((postsPOST cP pb).2 = false ↔ postReqFalsy pb = true) ∧
    (postReqFalsy pb = true →
      (postsPOST cP pb).1
        = errResp 400 "Missing required fields: title, slug, content, excerpt, author, category") ∧
    ((productsPOST cQ qb).2 = false ↔ productReqFalsy qb = true) ∧
    (productReqFalsy qb = true →
      (productsPOST cQ qb).1
        = errResp 400 "Missing required fields: name, slug, price, category") ∧
    ((createPostAction cP pb).2 = false ↔ postReqFalsy pb = true) ∧
    (postReqFalsy pb = true →
      (createPostAction cP pb).1
        = failAR "Missing required fields: title, slug, content, excerpt, author, category") ∧
    ((createProductAction cQ qb).2 = false ↔ productReqFalsy qb = true) ∧
    (productReqFalsy qb = true →
      (createProductAction cQ qb).1
        = failAR "Missing required fields: name, slug, price, category") := by
  refine ⟨?_, ?_, ?_, ?_, ?_, ?_, ?_, ?_⟩
  · cases hv : postReqFalsy pb
    · cases cP <;> simp [postsPOST, hv]
    · simp [postsPOST, hv]
  · intro hv
    simp [postsPOST, hv]
  · cases hv : productReqFalsy qb
    · cases cQ <;> simp [productsPOST, hv]
    · simp [productsPOST, hv]
  · intro hv
    simp [productsPOST, hv]
  · cases hv : postReqFalsy pb
    · cases cP <;> simp [createPostAction, hv]
    · simp [createPostAction, hv]
  · intro hv
    simp [createPostAction, hv]
  · cases hv : productReqFalsy qb
    · cases cQ <;> simp [createProductAction, hv]
    · simp [createProductAction, hv]
  · intro hv
    simp [createProductAction, hv]

/-- Claim C5, witness: the amended theorem evaluated at the concrete zero-price
body. -/
theorem C5_required_fields_witness :
    (createProductAction (Except.ok "doc") qbZero).1
      = failAR "Missing required fields: name, slug, price, category" :=
  (C5_required_fields (Except.ok "doc") (Except.ok "doc") pbFull qbZero).2.2.2.2.2.2.2
    (by simp [productReqFalsy, qbZero, falsyN])

/-- Claim C6 (confirmed): every modelled route handler and mutation action is a
total function into a result envelope (so no exception crosses the boundary),
every failure envelope carries an error message, and a thrown store error
surfaces as success=false with the thrown message (or the handler's fixed
fallback when the message is empty), with HTTP status 500 for the route
handlers — except the validation 400, which never reaches the store. -/
theorem C6_error_envelopes (find : FindCall → Except Err PagResult)
    (cP cQ : Except Err String) (p : PostsParams) (q : ProductsParams)
    (pb : PostBody) (qb : ProductBody) (e : Err) (nowv id : String)
    (ps : List (String × PostRec)) (qs : List (String × ProductRec))
    (pids qids : List String) (pu : PostUpdates) (qu : ProductUpdates) (inv : Int) :
    envOK (postsGET find p) ∧ envOK (productsGET find q) ∧
    envOK (postsPOST cP pb).1 ∧ envOK (productsPOST cQ qb).1 ∧
    envOKA (createPostAction cP pb).1 ∧ envOKA (createProductAction cQ qb).1 ∧
    envOKA (togglePostStatus nowv ps id).2 ∧ envOKA (togglePostFeatured ps id).2 ∧
    envOKA (toggleProductStock qs id).2 ∧ envOKA (toggleProductFeatured qs id).2 ∧
    envOKA (bulkUpdatePosts ps pids pu).2.2 ∧ envOKA (bulkUpdateProducts qs qids qu).2.2 ∧
    envOKA (updateProductInventory qs id inv).2 ∧
    postsGET (fun _ => Except.error e) p = errResp 500 (msgOr e "Failed to fetch posts") ∧
    productsGET (fun _ => Except.error e) q
      = errResp 500 (msgOr e "Failed to fetch products") ∧
    (postsPOST (Except.error e) pb).1
      = (if postReqFalsy pb then
          errResp 400 "Missing required fields: title, slug, content, excerpt, author, category"
        else errResp 500 (msgOr e "Failed to create post")) ∧
    (productsPOST (Except.error e) qb).1
      = (if productReqFalsy qb then
          errResp 400 "Missing required fields: name, slug, price, category"
        else errResp 500 (msgOr e "Failed to create product")) := by
  refine ⟨?_, ?_, ?_, ?_, ?_, ?_, ?_, ?_, ?_, ?_, ?_, ?_, ?_, ?_, ?_, ?_, ?_⟩
  · cases hf : find (postsGETcall p) <;> simp [postsGET, hf, envOK, okResp, errResp]
  · cases hf : find (productsGETcall q) <;> simp [productsGET, hf, envOK, okResp, errResp]
  · cases hv : postReqFalsy pb
    · cases cP <;> simp [postsPOST, hv, envOK, errResp]
    · simp [postsPOST, hv, envOK, errResp]
  · cases hv : productReqFalsy qb
    · cases cQ <;> simp [productsPOST, hv, envOK, errResp]
    · simp [productsPOST, hv, envOK, errResp]
  · cases hv : postReqFalsy pb
    · cases cP <;> simp [createPostAction, hv, envOKA, failAR]
    · simp [createPostAction, hv, envOKA, failAR]
  · cases hv : productReqFalsy qb
    · cases cQ <;> simp [createProductAction, hv, envOKA, failAR]
    · simp [createProductAction, hv, envOKA, failAR]
  · cases hf : storeFind ps id <;>
      simp [togglePostStatus, hf, storeUpdate, envOKA, failAR]
  · cases hf : storeFind ps id <;>
      simp [togglePostFeatured, hf, storeUpdate, envOKA, failAR]
  · cases hf : storeFind qs id <;>
      simp [toggleProductStock, hf, storeUpdate, envOKA, failAR]
  · cases hf : storeFind qs id <;>
      simp [toggleProductFeatured, hf, storeUpdate, envOKA, failAR]
  · rcases hbr : bulkRun (applyPostUpdates pu) ps pids with ⟨s1, log, r⟩
    cases r <;> simp [bulkUpdatePosts, hbr, envOKA, failAR]
  · rcases hbr : bulkRun (applyProductUpdates qu) qs qids with ⟨s1, log, r⟩
    cases r <;> simp [bulkUpdateProducts, hbr, envOKA, failAR]
  · by_cases hneg : inv < 0
    · simp [updateProductInventory, hneg, envOKA, failAR]
    · cases hf : storeFind qs id <;>
        simp [updateProductInventory, hneg, storeUpdate, hf, envOKA, failAR]
  · rfl
  · rfl
  · cases hv : postReqFalsy pb <;> simp [postsPOST, hv]
  · cases hv : productReqFalsy qb <;> simp [productsPOST, hv]

/-- Claim C8, counterexample: a preview request carrying no access token and
no `path` parameter returns 404 "No path provided" — the path check runs
before any token check — refuting "for every preview request carrying no
access token, the preview route returns HTTP 403"; and with a path present,
a no-token request on an enabled flag actively disables draft mode rather
than merely leaving a disabled flag disabled. -/
theorem C8_counterexample :
    previewGET pvFind0 pvJwt0 false none none none none
      = (PreviewOutcome.notFound "No path provided", false) ∧
    (previewGET pvFind0 pvJwt0 false none none none none).1 ≠ PreviewOutcome.forbidden ∧
    previewGET pvFind0 pvJwt0 true none (some "/p") none none
      = (PreviewOutcome.forbidden, false) := by
  decide

/-- Claim C8 (amended): when the `path` parameter is absent or empty the
preview route returns 404 "No path provided" before any token check, leaving
the draft flag unchanged; for a request with a non-empty path the route
follows the state map — a missing or empty token gives 403 and disables draft
mode; a token that fails JWT verification (a throw, or a falsy decoded user)
gives 403 with draft mode disabled as a side effect; a valid token with
non-empty collection/slug whose existence check finds no documents gives 404
with the flag unchanged; and a valid token with the document present, or with
no collection/slug given, enables draft mode and redirects to the path taken
verbatim. -/
theorem C8_preview_states (find : String → String → Except Err Nat)
    (jwtVerify : String → Except Err (Option String))
    (draft : Bool) (token collection slug : Option String)
    (p t c sl u : String) (e : Err) (n : Nat) :
    previewGET find jwtVerify draft token none collection slug
      = (PreviewOutcome.notFound "No path provided", draft) ∧
    previewGET find jwtVerify draft token (some "") collection slug
      = (PreviewOutcome.notFound "No path provided", draft) ∧
    (p ≠ "" →
      previewGET find jwtVerify draft none (some p) collection slug
        = (PreviewOutcome.forbidden, false) ∧
      previewGET find jwtVerify draft (some "") (some p) collection slug
        = (PreviewOutcome.forbidden, false) ∧
      (t ≠ "" → jwtVerify t = Except.error e →
        previewGET find jwtVerify draft (some t) (some p) collection slug
          = (PreviewOutcome.forbidden, false)) ∧
      (t ≠ "" → jwtVerify t = Except.ok none →
        previewGET find jwtVerify draft (some t) (some p) collection slug
          = (PreviewOutcome.forbidden, false)) ∧
      (t ≠ "" → jwtVerify t = Except.ok (some u) → c ≠ "" → sl ≠ "" →
        (find c sl = Except.ok 0 →
          previewGET find jwtVerify draft (some t) (some p) (some c) (some sl)
            = (PreviewOutcome.notFound "Document not found", draft)) ∧
        (find c sl = Except.ok (n + 1) →
          previewGET find jwtVerify draft (some t) (some p) (some c) (some sl)
            = (PreviewOutcome.redirectTo p, true))) ∧
      (t ≠ "" → jwtVerify t = Except.ok (some u) →
        previewGET find jwtVerify draft (some t) (some p) none none
          = (PreviewOutcome.redirectTo p, true))) := by
  refine ⟨rfl, rfl, ?_⟩
  intro hp
  refine ⟨?_, ?_, ?_, ?_, ?_, ?_⟩
  · simp [previewGET, hp]
  · simp [previewGET, hp]
  · intro ht hv
    simp [previewGET, hp, ht, hv]
  · intro ht hv
    simp [previewGET, hp, ht, hv]
  · intro ht hv hc hsl
    constructor
    · intro hf
      simp [previewGET, hp, ht, hv, hc, hsl, hf]
    · intro hf
      simp [previewGET, hp, ht, hv, hc, hsl, hf]
  · intro ht hv
    simp [previewGET, hp, ht, hv]

/-- Claim C8, witness: the amended state map evaluated with the concrete
verifier `pvJwt0` and document table `pvFind0`. -/
theorem C8_preview_states_witness :
    previewGET pvFind0 pvJwt0 true none none none none
      = (PreviewOutcome.notFound "No path provided", true) ∧
    previewGET pvFind0 pvJwt0 true none (some "/p") none none
      = (PreviewOutcome.forbidden, false) ∧
    previewGET pvFind0 pvJwt0 false (some "bad") (some "/p") none none
      = (PreviewOutcome.forbidden, false) ∧
    previewGET pvFind0 pvJwt0 false (some "good") (some "/p") (some "posts") (some "y")
      = (PreviewOutcome.notFound "Document not found", false) ∧
    previewGET pvFind0 pvJwt0 false (some "good") (some "/p") (some "posts") (some "x")
      = (PreviewOutcome.redirectTo "/p", true) ∧
    previewGET pvFind0 pvJwt0 false (some "good") (some "/p") none none
      = (PreviewOutcome.redirectTo "/p", true) :=
  ⟨(C8_preview_states pvFind0 pvJwt0 true none none none "/p" "bad" "posts" "y" "user"
      ⟨"bad token"⟩ 0).1,
   ((C8_preview_states pvFind0 pvJwt0 true none none none "/p" "bad" "posts" "y" "user"
      ⟨"bad token"⟩ 0).2.2 (by decide)).1,
   ((C8_preview_states pvFind0 pvJwt0 false none none none "/p" "bad" "posts" "y" "user"
      ⟨"bad token"⟩ 0).2.2 (by decide)).2.2.1 (by decide) rfl,
   (((C8_preview_states pvFind0 pvJwt0 false none none none "/p" "good" "posts" "y" "user"
      ⟨"bad token"⟩ 0).2.2 (by decide)).2.2.2.2.1 (by decide) rfl (by decide)
      (by decide)).1 rfl,
   (((C8_preview_states pvFind0 pvJwt0 false none none none "/p" "good" "posts" "x" "user"
      ⟨"bad token"⟩ 0).2.2 (by decide)).2.2.2.2.1 (by decide) rfl (by decide)
      (by decide)).2 rfl,
   ((C8_preview_states pvFind0 pvJwt0 false none none none "/p" "good" "posts" "x" "user"
      ⟨"bad token"⟩ 0).2.2 (by decide)).2.2.2.2.2 (by decide) rfl⟩

/-- Claim C10 (confirmed): the exit-draft route disables the draft-mode flag
unconditionally (whatever the query parameters and the flag's prior value) and
redirects to the untrusted `path` query parameter taken verbatim with no
allow-list, defaulting to "/" when the parameter is absent or empty. -/
theorem C10_exit_draft (draft : Bool) (path : Option String) (p : String) :
    (exitDraftGET draft path).1 = false ∧
    (exitDraftGET draft none).2 = "/" ∧
    (exitDraftGET draft (some "")).2 = "/" ∧
    (p ≠ "" → (exitDraftGET draft (some p)).2 = p) := by
  refine ⟨rfl, rfl, rfl, ?_⟩
  intro h
  simp [exitDraftGET, h]

/-- Claim C10, witness: with draft mode on and an arbitrary external path, the
flag comes back off and the redirect target is the parameter verbatim. -/
theorem C10_exit_draft_witness :
    (exitDraftGET true (some "/anywhere")).1 = false ∧
    (exitDraftGET true (some "/anywhere")).2 = "/anywhere" :=
  ⟨(C10_exit_draft true (some "/anywhere") "/anywhere").1,
   (C10_exit_draft true (some "/anywhere") "/anywhere").2.2.2 (by decide)⟩
